import Mathlib

/-!
Shallow embedding of the DICOM-viewer decoding core
(src/src/dicom/domain/common.ts, src/src/dicom/domain/Image.ts and the
legacy DicomImage.ts module found in src/unnamed/part_001), together with
theorems checking the natural-language specification against it.

TypeScript string enums erase to their string values at runtime; where the
source performs an unvalidated cast from a raw tag string to an enum type
(photometric interpretation, VOI LUT function name), the embedding keeps the
runtime truth and models the field as a `String`.  JavaScript `number`s that
can be NaN (the output of `Number.parseFloat`) are modelled as `Option ℚ`,
`none` standing for NaN.  Thrown `Error`s become `Except.error` carrying the
exact message string of the throw site.
-/

namespace DicomViewer

/-- `enum TransferSyntax` of common.ts (also duplicated in the legacy
DicomImage.ts module). -/
inductive TransferSyntax where
  | JPEG2000 | DecodeRLE | JPEGLossless | JPEGBaseline | UncompressedLE | UncompressedBE
  deriving DecidableEq, Repr

/-- `enum Endianness` of common.ts. -/
inductive Endianness where
  | LittleEndian | BigEndian
  deriving DecidableEq, Repr

/-- `enum Compression` of common.ts. -/
inductive Compression where
  | None | JpegLossless | JpegBaseline | Jpeg2000 | Rle
  deriving DecidableEq, Repr

/-- `enum PixelRepresentation` of common.ts. -/
inductive PixelRepresentation where
  | Unsigned | Signed
  deriving DecidableEq, Repr

/-- `enum PlanarConfiguration` of common.ts. -/
inductive PlanarConfiguration where
  | Interlaced | Separated
  deriving DecidableEq, Repr

namespace TransferSyntax_

/-- `TransferSyntax_.default` of common.ts. -/
def default : TransferSyntax := TransferSyntax.UncompressedLE

/-- `TransferSyntax_.fromTransferSyntaxUID` of common.ts: a `ts-pattern`
exact-string match returning `ok` for each recognized UID and
`err "Unexpected transfer syntax"` for the wildcard branch. -/
def fromTransferSyntaxUID (transferSyntax : String) : Except String TransferSyntax :=
  if transferSyntax = "1.2.840.10008.1.2" ∨ transferSyntax = "1.2.840.10008.1.2.1" then
    .ok TransferSyntax.UncompressedLE
  else if transferSyntax = "1.2.840.10008.1.2.2" then
    .ok TransferSyntax.UncompressedBE
  else if transferSyntax = "1.2.840.10008.1.2.4.90" ∨ transferSyntax = "1.2.840.10008.1.2.4.91" then
    .ok TransferSyntax.JPEG2000
  else if transferSyntax = "1.2.840.10008.1.2.5" then
    .ok TransferSyntax.DecodeRLE
  else if transferSyntax = "1.2.840.10008.1.2.4.57" ∨ transferSyntax = "1.2.840.10008.1.2.4.70" then
    .ok TransferSyntax.JPEGLossless
  else if transferSyntax = "1.2.840.10008.1.2.4.50" ∨ transferSyntax = "1.2.840.10008.1.2.4.51" then
    .ok TransferSyntax.JPEGBaseline
  else
    .error "Unexpected transfer syntax"

/-- `TransferSyntax_.toCompressionAndEndianness` of common.ts (identical in
the legacy DicomImage.ts module): a total match over the enumeration. -/
def toCompressionAndEndianness : TransferSyntax → Compression × Endianness
  | TransferSyntax.UncompressedBE => (Compression.None, Endianness.BigEndian)
  | TransferSyntax.UncompressedLE => (Compression.None, Endianness.LittleEndian)
  | TransferSyntax.DecodeRLE => (Compression.Rle, Endianness.LittleEndian)
  | TransferSyntax.JPEGLossless => (Compression.JpegLossless, Endianness.LittleEndian)
  | TransferSyntax.JPEG2000 => (Compression.Jpeg2000, Endianness.LittleEndian)
  | TransferSyntax.JPEGBaseline => (Compression.JpegBaseline, Endianness.LittleEndian)

end TransferSyntax_

namespace LegacyTransferSyntax_

/-- The legacy `TransferSyntax_.fromTransferSyntaxUID` of the DicomImage.ts
module (src/unnamed/part_001): a `switch` whose `"1.2.840.10008.1.2.2"` case
is grouped with `default`, so every unrecognized string returns
`UncompressedBE`. -/
def fromTransferSyntaxUID (transferSyntaxUID : String) : TransferSyntax :=
  if transferSyntaxUID = "1.2.840.10008.1.2.4.90" ∨ transferSyntaxUID = "1.2.840.10008.1.2.4.91" then
    TransferSyntax.JPEG2000
  else if transferSyntaxUID = "1.2.840.10008.1.2.5" then
    TransferSyntax.DecodeRLE
  else if transferSyntaxUID = "1.2.840.10008.1.2.4.57" ∨ transferSyntaxUID = "1.2.840.10008.1.2.4.70" then
    TransferSyntax.JPEGLossless
  else if transferSyntaxUID = "1.2.840.10008.1.2.4.50" ∨ transferSyntaxUID = "1.2.840.10008.1.2.4.51" then
    TransferSyntax.JPEGBaseline
  else if transferSyntaxUID = "1.2.840.10008.1.2" ∨ transferSyntaxUID = "1.2.840.10008.1.2.1" then
    TransferSyntax.UncompressedLE
  else
    TransferSyntax.UncompressedBE

end LegacyTransferSyntax_

/-- The ten transfer-syntax UID strings recognized by the resolver table. -/
def recognizedUIDs : List String :=
  ["1.2.840.10008.1.2", "1.2.840.10008.1.2.1", "1.2.840.10008.1.2.2",
   "1.2.840.10008.1.2.4.90", "1.2.840.10008.1.2.4.91", "1.2.840.10008.1.2.5",
   "1.2.840.10008.1.2.4.57", "1.2.840.10008.1.2.4.70",
   "1.2.840.10008.1.2.4.50", "1.2.840.10008.1.2.4.51"]

/-- All members of the `TransferSyntax` enumeration. -/
def allTransferSyntaxes : List TransferSyntax :=
  [TransferSyntax.JPEG2000, TransferSyntax.DecodeRLE, TransferSyntax.JPEGLossless,
   TransferSyntax.JPEGBaseline, TransferSyntax.UncompressedLE, TransferSyntax.UncompressedBE]

/-- `VoiLutWindow` of common.ts: `{center: number, width: number}`. -/
structure VoiLutWindow where
  center : ℚ
  width : ℚ
  deriving DecidableEq, Repr

/-- `VoiLutWindow.default` of common.ts. -/
def VoiLutWindow.default : VoiLutWindow :=
  { center := 1024, width := 4096 }

/-- `VoiLutFunction.Linear` of common.ts: the TypeScript string-enum member
erases to the string value declared in the source. -/
def VoiLutFunction.LinearValue : String := "LINEAR"

/-- `VoiLutFunction_.default` of common.ts, as its runtime string value. -/
def VoiLutFunction_.default : String := VoiLutFunction.LinearValue

/-- `VoiLutModule` of common.ts.  `voiLutFunction` is modelled as the raw
string because the value stored there comes from an unvalidated cast of the
x00281056 tag string in `DicomImage._fromDataSet`. -/
structure VoiLutModule where
  window : VoiLutWindow
  voiLutFunction : String
  deriving DecidableEq, Repr

/-- Sum of `digit * 10 ^ position` over a digit list, most significant
first: the value of a decimal digit string. -/
def digitsToNat (ds : List Char) : Nat :=
  ds.foldl (fun a c => 10 * a + (c.toNat - Char.toNat '0')) 0

/-- Splitting a character list at every occurrence of a separator
character: the model of JavaScript `String.prototype.split` with a
one-character separator, so `"".split` gives one empty field and a
trailing separator yields a trailing empty field. -/
def splitOnChar (sep : Char) : List Char → List (List Char)
  | [] => [[]]
  | c :: rest =>
      match splitOnChar sep rest, decide (c = sep) with
      | groups, true => [] :: groups
      | g :: gs, false => (c :: g) :: gs
      | [], false => [[c]]

/-- The syntactic shape of a parsed decimal literal: sign, integer digits,
fraction digits. -/
structure FloatLiteral where
  neg : Bool
  intDigits : List Char
  fracDigits : List Char
  deriving DecidableEq, Repr

/-- The scanning phase of `Number.parseFloat` on decimal literals: skip
leading whitespace, read an optional sign, integer digits, and an optional
fraction.  Returns `none` (NaN) when no digit can be read. -/
def scanFloat (chars : List Char) : Option FloatLiteral :=
  let cs := chars.dropWhile (fun c => c == ' ' || c == '\t' || c == '\n' || c == '\r')
  let neg := cs.head? == some '-'
  let body := if cs.head? == some '-' || cs.head? == some '+' then cs.tail else cs
  let intPart := body.takeWhile Char.isDigit
  let rest := body.dropWhile Char.isDigit
  let fracPart := if rest.head? == some '.' then rest.tail.takeWhile Char.isDigit else []
  if intPart.isEmpty ∧ fracPart.isEmpty then none
  else some { neg := neg, intDigits := intPart, fracDigits := fracPart }

/-- The numeric value of a parsed decimal literal. -/
def floatValue (lit : FloatLiteral) : ℚ :=
  (if lit.neg then -1 else 1) *
    ((digitsToNat lit.intDigits : ℚ) +
      (digitsToNat lit.fracDigits : ℚ) / (10 : ℚ) ^ lit.fracDigits.length)

/-- Model of the JavaScript builtin `Number.parseFloat` on decimal literals
(exponents and the Infinity literals do not occur in this codebase's
inputs).  `none` stands for NaN, returned when no digit can be parsed.
`parseFloat` is a platform builtin, not repository code; crucially it never
throws. -/
def parseFloatChars (chars : List Char) : Option ℚ :=
  (scanFloat chars).map floatValue

/-- `Number.parseFloat` on a string, via its character list. -/
def parseFloat (s : String) : Option ℚ :=
  parseFloatChars s.data

/-- `PixelSpacing` of common.ts: `{row: number, column: number}`.  The
fields are `Option ℚ` because `Number.parseFloat` can produce NaN
(modelled as `none`) and the code stores its result unchecked. -/
structure PixelSpacing where
  row : Option ℚ
  column : Option ℚ
  deriving DecidableEq, Repr

/-- `PixelSpacing.fromString` of common.ts: split on a single backslash,
require exactly two fields, then `parseFloat` each.  The source wraps the
`parseFloat` calls in try/catch, but `parseFloat` never throws, so the
catch branch (`err "Invalid value of Pixel Spacing"`) is unreachable and a
non-numeric field flows through as NaN inside an `ok`. -/
def PixelSpacing.fromString (str : String) : Except String PixelSpacing :=
  let rawNumbers := splitOnChar '\\' str.data
  if rawNumbers.length ≠ 2 then
    .error "Invalid value of Pixel Spacing"
  else
    .ok { row := parseFloatChars (rawNumbers.getD 0 []),
          column := parseFloatChars (rawNumbers.getD 1 []) }

/-- The two recognized pixel-data value representations, `"OB" | "OW"`. -/
inductive PixelDataVr where
  | OB | OW
  deriving DecidableEq, Repr

/-- The `voiLutModule` field of `DicomImage` (DicomImage.ts): a bundle of
independently optional windowing hints.  `voiLutFunction` keeps the raw tag
string, since DicomImage.ts casts it without validation. -/
structure WindowingHint where
  windowCenter : Option ℚ
  windowWidth : Option ℚ
  voiLutFunction : Option String
  deriving DecidableEq, Repr

/-- `interface DicomImage` of DicomImage.ts.  `photometricInterpratation`
is modelled as the raw string: `_fromDataSet` casts the x00280004 tag string
to the enum without validation (`// ToDo: Need validation`), so at runtime
the field holds whatever string the tag carried.  `pixelData` is the byte
list of the `Uint8Array` (each entry a byte value below 256 by
construction). -/
structure DicomImage where
  compression : Compression
  endianness : Endianness
  rows : Nat
  columns : Nat
  samplePerPixel : Nat
  photometricInterpratation : String
  planarConfiguration : Option PlanarConfiguration
  bitsAllocated : Nat
  bitsStored : Nat
  highBit : Nat
  pixelRepresentation : PixelRepresentation
  pixelData : List Nat
  pixelDataVr : PixelDataVr
  voiLutModule : WindowingHint
  deriving DecidableEq, Repr

/-- The sample buffer of a grayscale raster: `Uint8Array | Uint16Array |
Uint32Array` in Image.ts, tagged by element width. -/
inductive SampleBuffer where
  | u8 (samples : List Nat)
  | u16 (samples : List Nat)
  | u32 (samples : List Nat)
  deriving DecidableEq, Repr

/-- `Image = ImageGrayScale | ImageRGB` of Image.ts. -/
inductive Image where
  | grayScale (rows columns : Nat) (pixelData : SampleBuffer)
  | rgb (rows columns : Nat) (pixelData : List Nat)
  deriving DecidableEq, Repr

/-- `interface DataForImageGrayScale` of Image.ts. -/
structure DataForImageGrayScale where
  rows : Nat
  columns : Nat
  photometricInterpratation : String
  pixelRepresentation : PixelRepresentation
  bitsAllocated : Nat
  bitsStored : Nat
  highBit : Nat
  pixelData : List Nat
  pixelDataVr : PixelDataVr
  deriving DecidableEq, Repr

/-- `new Uint16Array(bytes.buffer)` on a little-endian platform: each
consecutive byte pair becomes `b0 + 256 * b1`.  No byte swap is performed
anywhere in the source.  The `% 256` reflects the `Uint8Array` element
range.  The singleton case is unreachable under the evenness guard of
`reinterpretBuffer`. -/
def bytesToUint16LE : List Nat → List Nat
  | b0 :: b1 :: rest => (b0 % 256 + 256 * (b1 % 256)) :: bytesToUint16LE rest
  | _ => []

/-- `new Uint32Array(bytes.buffer)` on a little-endian platform: each
consecutive byte quadruple becomes `b0 + 256·b1 + 65536·b2 + 16777216·b3`. -/
def bytesToUint32LE : List Nat → List Nat
  | b0 :: b1 :: b2 :: b3 :: rest =>
      (b0 % 256 + 256 * (b1 % 256) + 65536 * (b2 % 256) + 16777216 * (b3 % 256))
        :: bytesToUint32LE rest
  | _ => []

/-- The typed-array constructor over a byte buffer: JavaScript throws a
RangeError when the buffer's byte length is not a multiple of the element
width. -/
def reinterpretBuffer (elemBytes : Nat) (bytes : List Nat) : Except String (List Nat) :=
  if bytes.length % elemBytes = 0 then
    .ok (if elemBytes = 2 then bytesToUint16LE bytes else bytesToUint32LE bytes)
  else
    .error "RangeError"

namespace Image_

/-- `Image_._fromDataForImageGrayScale` of Image.ts: the grayscale decode
with its four precondition checks in source order, then buffer
reinterpretation selected by `bitsAllocated`.  Thrown `Error(msg)` becomes
`Except.error msg`. -/
def _fromDataForImageGrayScale (data : DataForImageGrayScale) : Except String Image :=
  if data.pixelDataVr = PixelDataVr.OW ∧ data.bitsAllocated ≠ 16 then
    .error "Not supported pixelData VR"
  else if data.highBit + 1 ≠ data.bitsStored then
    .error "Not supported combination of hightBit and bitsStored"
  else if data.photometricInterpratation = "MONOCHROME1" then
    .error "Not supported photometricInterpratation"
  else if data.pixelRepresentation = PixelRepresentation.Signed then
    .error "Not supported pixelRepresentation"
  else if data.bitsAllocated = 8 then
    .ok (Image.grayScale data.rows data.columns (SampleBuffer.u8 data.pixelData))
  else if data.bitsAllocated = 16 then
    (reinterpretBuffer 2 data.pixelData).map fun samples =>
      Image.grayScale data.rows data.columns (SampleBuffer.u16 samples)
  else if data.bitsAllocated = 32 then
    (reinterpretBuffer 4 data.pixelData).map fun samples =>
      Image.grayScale data.rows data.columns (SampleBuffer.u32 samples)
  else
    .error "Not supported bitsAllocated"

/-- `Image_.fromDicomImage` of Image.ts: the only successful route is the
grayscale one (compression `None`, Monochrome1 or Monochrome2, one sample
per pixel); every other input reaches
`throw Error("Couldn't convert to Image")`.  `_rgbFrom` is never called. -/
def fromDicomImage (dicomImage : DicomImage) : Except String Image :=
  if dicomImage.compression = Compression.None ∧
     (dicomImage.photometricInterpratation = "MONOCHROME1" ∨
      dicomImage.photometricInterpratation = "MONOCHROME2") ∧
     dicomImage.samplePerPixel = 1 then
    _fromDataForImageGrayScale
      { rows := dicomImage.rows
        columns := dicomImage.columns
        photometricInterpratation := dicomImage.photometricInterpratation
        pixelRepresentation := dicomImage.pixelRepresentation
        bitsAllocated := dicomImage.bitsAllocated
        bitsStored := dicomImage.bitsStored
        highBit := dicomImage.highBit
        pixelData := dicomImage.pixelData
        pixelDataVr := dicomImage.pixelDataVr }
  else
    .error "Couldn't convert to Image"

/-- `Image_._rgbFrom` of Image.ts: a `// TODO` placeholder that
reinterprets the raw pixel-data buffer as 32-bit packed pixels.  It reads
only `rows`, `columns` and `pixelData`; `planarConfiguration`,
`bitsAllocated`, `highBit` and `pixelRepresentation` are not consulted.
No call site exists in the repository. -/
def _rgbFrom (dicomImage : DicomImage) : Except String Image :=
  (reinterpretBuffer 4 dicomImage.pixelData).map fun pixels =>
    Image.rgb dicomImage.rows dicomImage.columns pixels

end Image_

/-- A pixel-data element of the external `dicom-parser` DataSet:
`{vr?, length, dataOffset}`. -/
structure DicomElement where
  vr : Option String
  length : Nat
  dataOffset : Nat
  deriving DecidableEq, Repr

/-- The external tag-source collaborator (`dicom-parser`'s `DataSet`),
abstracted to the typed getters `_fromDataSet` uses: string, uint16 and
float-string lookups by tag, element lookup, and the underlying byte
array.  A getter returns `none` where the JavaScript API returns
`undefined`; `floatStringAt` models `dataSet.floatString`. -/
structure DataSet where
  stringAt : String → Option String
  uint16At : String → Option Nat
  floatStringAt : String → Option ℚ
  elementAt : String → Option DicomElement
  byteArray : List Nat

/-- The VOI-LUT-function defaulting expression of
`DicomImage._fromDataSet` (DicomImage.ts): the x00281056 tag string is
trusted when present; otherwise the function is `"LINEAR"` when a window
center is present and absent when it is not. -/
def extractVoiLutFunction (fnTag : Option String) (windowCenter : Option ℚ) : Option String :=
  match fnTag with
  | some s => some s
  | none => if windowCenter.isSome then some VoiLutFunction.LinearValue else none

namespace DicomImage

/-- `DicomImage._fromDataSet` of DicomImage.ts: sequential extraction and
validation of the required tags, failing fast with the source's error
string at the first missing or out-of-range value.  The transfer-syntax
string is fed to the legacy resolver; an absent x00020012 tag falls into
that switch's `default` branch at runtime, yielding `UncompressedBE`.  The
unchecked access `dataSet.elements.x7fe00010` crashes with a TypeError in
JavaScript when the pixel-data element is absent; that crash is modelled as
`Except.error "TypeError"`.  The photometric-interpretation string is
stored verbatim (the source casts it with `// ToDo: Need validation`). -/
def _fromDataSet (dataSet : DataSet) : Except String DicomImage :=
  let transferSyntax := match dataSet.stringAt "x00020012" with
    | some s => LegacyTransferSyntax_.fromTransferSyntaxUID s
    | none => TransferSyntax.UncompressedBE
  let ce := TransferSyntax_.toCompressionAndEndianness transferSyntax
  match dataSet.uint16At "x00280010" with
  | none => .error "DicomImage need to have rows"
  | some rows =>
  match dataSet.uint16At "x00280011" with
  | none => .error "DicomImage need to have columns"
  | some columns =>
  match dataSet.uint16At "x00280002" with
  | none => .error "DicomImage need to have samplePerPixel"
  | some samplePerPixel =>
  match dataSet.stringAt "x00280004" with
  | none => .error "DicomImage need to have photometricInterpratation"
  | some photometricInterpratation =>
  match (dataSet.uint16At "x00280006").getD 0 with
  | 0 => processPlanar dataSet ce rows columns samplePerPixel photometricInterpratation
      PlanarConfiguration.Interlaced
  | 1 => processPlanar dataSet ce rows columns samplePerPixel photometricInterpratation
      PlanarConfiguration.Separated
  | _ => .error "DicomImage have incorrect planarConfiguration"
where
  /-- Continuation of `_fromDataSet` after the planar-configuration
  switch, kept in source order. -/
  processPlanar (dataSet : DataSet) (ce : Compression × Endianness)
      (rows columns samplePerPixel : Nat) (photometricInterpratation : String)
      (planarConfiguration : PlanarConfiguration) : Except String DicomImage :=
    match dataSet.uint16At "x00280100" with
    | none => .error "DicomImage need to have bitsAllocated"
    | some bitsAllocated =>
    match dataSet.uint16At "x00280101" with
    | none => .error "DicomImage need to have bitsStored"
    | some bitsStored =>
    match dataSet.uint16At "x00280102" with
    | none => .error "DicomImage need to have highBit"
    | some highBit =>
    match dataSet.uint16At "x00280103" with
    | none => .error "DicomImage need to have pixelRepresentationValue"
    | some pixelRepresentationValue =>
    let pixelRepresentation := match pixelRepresentationValue with
      | 0 => some PixelRepresentation.Unsigned
      | 1 => some PixelRepresentation.Signed
      | _ => none
    match pixelRepresentation with
    | none => .error "Unexpected value of pixelRepresentation"
    | some pixelRepresentation =>
    match dataSet.elementAt "x7fe00010" with
    | none => .error "TypeError"
    | some pixelDataElement =>
    let pixelDataVr := match pixelDataElement.vr.getD "OB" with
      | "OB" => some PixelDataVr.OB
      | "OW" => some PixelDataVr.OW
      | _ => none
    match pixelDataVr with
    | none => .error "Unexpected pixelData VR"
    | some pixelDataVr =>
    let pixelData := (List.range pixelDataElement.length).map
      (fun idx => (dataSet.byteArray.getD (pixelDataElement.dataOffset + idx) 0) % 256)
    let windowCenter := dataSet.floatStringAt "x00281050"
    let windowWidth := dataSet.floatStringAt "x00281051"
    let voiLutFunction := extractVoiLutFunction (dataSet.stringAt "x00281056") windowCenter
    match dataSet.elementAt "x00283010" with
    | some _ => .error "Not supported voiLutSequence"
    | none =>
      .ok { compression := ce.1
            endianness := ce.2
            rows := rows
            columns := columns
            samplePerPixel := samplePerPixel
            photometricInterpratation := photometricInterpratation
            planarConfiguration := some planarConfiguration
            bitsAllocated := bitsAllocated
            bitsStored := bitsStored
            highBit := highBit
            pixelRepresentation := pixelRepresentation
            pixelData := pixelData
            pixelDataVr := pixelDataVr
            voiLutModule :=
              { windowCenter := windowCenter
                windowWidth := windowWidth
                voiLutFunction := voiLutFunction } }

end DicomImage

/-- Modelled from the spec: the Windowing Resolver's `resolve` (spec §4.5)
is not present under src/ — only its ingredients are (`VoiLutWindow.default`
and `VoiLutFunction_.default` in common.ts, and the hint extraction in
`DicomImage._fromDataSet`).  Per the spec: hint values are used verbatim
with no range validation, the function defaults to Linear when unspecified,
and an absent hint yields the fixed default module; the function is total
and never fails. -/
def resolveVoiLut (hint : Option WindowingHint) : VoiLutModule :=
  match hint with
  | none =>
      { window := VoiLutWindow.default
        voiLutFunction := VoiLutFunction_.default }
  | some h =>
      { window :=
          { center := h.windowCenter.getD VoiLutWindow.default.center
            width := h.windowWidth.getD VoiLutWindow.default.width }
        voiLutFunction := h.voiLutFunction.getD VoiLutFunction_.default }

/-- Little-endian encoding of a list of 16-bit sample values into a byte
list: each value `v` contributes the byte pair `[v % 256, v / 256]`. -/
def encodeLE16 : List Nat → List Nat
  | [] => []
  | v :: vs => v % 256 :: v / 256 :: encodeLE16 vs

lemma encodeLE16_length (samples : List Nat) :
    (encodeLE16 samples).length = 2 * samples.length := by
  induction samples with
  | nil => rfl
  | cons v vs ih => simp [encodeLE16, ih]; ring

lemma bytesToUint16LE_encodeLE16 (samples : List Nat)
    (h : ∀ v ∈ samples, v < 65536) :
    bytesToUint16LE (encodeLE16 samples) = samples := by
  induction samples with
  | nil => rfl
  | cons v vs ih =>
      have hv : v < 65536 := h v (List.mem_cons_self v vs)
      have hvs : ∀ w ∈ vs, w < 65536 := fun w hw => h w (List.mem_cons_of_mem v hw)
      simp only [encodeLE16, bytesToUint16LE, ih hvs, List.cons.injEq, and_true]
      omega

lemma reinterpretBuffer_encodeLE16 (samples : List Nat)
    (h : ∀ v ∈ samples, v < 65536) :
    reinterpretBuffer 2 (encodeLE16 samples) = .ok samples := by
  simp [reinterpretBuffer, encodeLE16_length, Nat.mul_mod_right,
    bytesToUint16LE_encodeLE16 samples h]

/-- A concrete uncompressed little-endian Monochrome2 16-bit image: 1×2
samples `[258, 513]` stored as the little-endian byte buffer
`[2, 1, 1, 2]`. -/
def sampleGray16 : DicomImage :=
  { compression := Compression.None
    endianness := Endianness.LittleEndian
    rows := 1
    columns := 2
    samplePerPixel := 1
    photometricInterpratation := "MONOCHROME2"
    planarConfiguration := none
    bitsAllocated := 16
    bitsStored := 16
    highBit := 15
    pixelRepresentation := PixelRepresentation.Unsigned
    pixelData := encodeLE16 [258, 513]
    pixelDataVr := PixelDataVr.OB
    voiLutModule := { windowCenter := none, windowWidth := none, voiLutFunction := none } }

/-- A concrete image whose transfer syntax is Explicit VR Big Endian
(UncompressedBE, so compression `None` and endianness `Big`): one 16-bit
Monochrome2 sample stored as the big-endian byte pair `[0, 1]`, whose
big-endian value is 1. -/
def bigEndianGray16 : DicomImage :=
  { compression := Compression.None
    endianness := Endianness.BigEndian
    rows := 1
    columns := 1
    samplePerPixel := 1
    photometricInterpratation := "MONOCHROME2"
    planarConfiguration := none
    bitsAllocated := 16
    bitsStored := 16
    highBit := 15
    pixelRepresentation := PixelRepresentation.Unsigned
    pixelData := [0, 1]
    pixelDataVr := PixelDataVr.OB
    voiLutModule := { windowCenter := none, windowWidth := none, voiLutFunction := none } }

/-- A concrete image identical to a decodable 16-bit grayscale image except
for photometric interpretation Monochrome1. -/
def mono1Gray16 : DicomImage :=
  { compression := Compression.None
    endianness := Endianness.LittleEndian
    rows := 1
    columns := 1
    samplePerPixel := 1
    photometricInterpratation := "MONOCHROME1"
    planarConfiguration := none
    bitsAllocated := 16
    bitsStored := 16
    highBit := 15
    pixelRepresentation := PixelRepresentation.Unsigned
    pixelData := [7, 0]
    pixelDataVr := PixelDataVr.OB
    voiLutModule := { windowCenter := none, windowWidth := none, voiLutFunction := none } }

/-- A concrete grayscale-path image with `highBit = 7` but
`bitsStored = 16`, violating the bit-layout invariant. -/
def badBitsGray16 : DicomImage :=
  { compression := Compression.None
    endianness := Endianness.LittleEndian
    rows := 1
    columns := 1
    samplePerPixel := 1
    photometricInterpratation := "MONOCHROME2"
    planarConfiguration := none
    bitsAllocated := 16
    bitsStored := 16
    highBit := 7
    pixelRepresentation := PixelRepresentation.Unsigned
    pixelData := [7, 0]
    pixelDataVr := PixelDataVr.OB
    voiLutModule := { windowCenter := none, windowWidth := none, voiLutFunction := none } }

/-- A concrete RGB image (photometric interpretation `"RGB"`, three samples
per pixel): it does not meet the grayscale preconditions. -/
def rgbImage3 : DicomImage :=
  { compression := Compression.None
    endianness := Endianness.LittleEndian
    rows := 1
    columns := 1
    samplePerPixel := 3
    photometricInterpratation := "RGB"
    planarConfiguration := some PlanarConfiguration.Interlaced
    bitsAllocated := 8
    bitsStored := 8
    highBit := 7
    pixelRepresentation := PixelRepresentation.Unsigned
    pixelData := [1, 2, 3, 4]
    pixelDataVr := PixelDataVr.OB
    voiLutModule := { windowCenter := none, windowWidth := none, voiLutFunction := none } }

/-- `rgbImage3` with different planar configuration, bit layout and pixel
representation but the same dimensions and pixel bytes. -/
def rgbImage3var : DicomImage :=
  { compression := Compression.None
    endianness := Endianness.LittleEndian
    rows := 1
    columns := 1
    samplePerPixel := 3
    photometricInterpratation := "RGB"
    planarConfiguration := some PlanarConfiguration.Separated
    bitsAllocated := 16
    bitsStored := 12
    highBit := 11
    pixelRepresentation := PixelRepresentation.Signed
    pixelData := [1, 2, 3, 4]
    pixelDataVr := PixelDataVr.OB
    voiLutModule := { windowCenter := none, windowWidth := none, voiLutFunction := none } }

/-- A concrete tag source whose photometric-interpretation tag holds the
string `"FOO BAR"`, outside the `PhotometricInterpratation` enumeration,
with every other required tag present and valid. -/
def fooBarDataSet : DataSet :=
  { stringAt := fun t =>
      if t = "x00020012" then some "1.2.840.10008.1.2.1"
      else if t = "x00280004" then some "FOO BAR"
      else none
    uint16At := fun t =>
      if t = "x00280010" then some 2
      else if t = "x00280011" then some 3
      else if t = "x00280002" then some 1
      else if t = "x00280100" then some 16
      else if t = "x00280101" then some 16
      else if t = "x00280102" then some 15
      else if t = "x00280103" then some 0
      else none
    floatStringAt := fun _ => none
    elementAt := fun t =>
      if t = "x7fe00010" then some { vr := some "OB", length := 2, dataOffset := 0 }
      else none
    byteArray := [5, 6] }

instance {e a : Type} [DecidableEq e] [DecidableEq a] : DecidableEq (Except e a) := fun x y =>
  match x, y with
  | .ok u, .ok v =>
      if h : u = v then .isTrue (by rw [h]) else .isFalse (by simp [h])
  | .error u, .error v =>
      if h : u = v then .isTrue (by rw [h]) else .isFalse (by simp [h])
  | .ok _, .error _ => .isFalse (by simp)
  | .error _, .ok _ => .isFalse (by simp)

/-- C1: a DicomImage with compression None, Monochrome2, one sample per
pixel, unsigned representation, bitsAllocated = bitsStored = 16,
highBit = 15, pixel-data VR OB or OW (unconstrained here, since both pass
the VR check when bitsAllocated is 16), and a pixel-data buffer holding the
N×M sample values in little-endian byte pairs decodes to a grayscale raster
carrying exactly those 16-bit values, unscaled and unshifted. -/
theorem c1_grayscale16_roundtrip (d : DicomImage) (samples : List Nat)
    (hcomp : d.compression = Compression.None)
    (hpi : d.photometricInterpratation = "MONOCHROME2")
    (hspp : d.samplePerPixel = 1)
    (hrep : d.pixelRepresentation = PixelRepresentation.Unsigned)
    (hba : d.bitsAllocated = 16)
    (hbs : d.bitsStored = 16)
    (hhb : d.highBit = 15)
    (hpd : d.pixelData = encodeLE16 samples)
    (hlen : samples.length = d.rows * d.columns)
    (hbound : ∀ v ∈ samples, v < 65536) :
    Image_.fromDicomImage d =
      .ok (Image.grayScale d.rows d.columns (SampleBuffer.u16 samples)) := by
  simp [Image_.fromDicomImage, Image_._fromDataForImageGrayScale, hcomp, hpi, hspp,
    hrep, hba, hbs, hhb, hpd, reinterpretBuffer_encodeLE16 samples hbound, Except.map]

/-- C1 witness: the 1×2 image `sampleGray16` with samples `[258, 513]`
decodes to exactly those values. -/
theorem c1_grayscale16_roundtrip_witness :
    (∀ v ∈ [(258 : Nat), 513], v < 65536) ∧
    Image_.fromDicomImage sampleGray16 =
      .ok (Image.grayScale 1 2 (SampleBuffer.u16 [258, 513])) :=
  ⟨by decide,
   c1_grayscale16_roundtrip sampleGray16 [258, 513]
     rfl rfl rfl rfl rfl rfl rfl rfl rfl (by decide)⟩

/-- C2 counterexample: the legacy resolver in DicomImage.ts
(src/unnamed/part_001) maps the unrecognized string
`"1.2.840.10008.999"` to the member `UncompressedBE` instead of a typed
failure, refuting the claim that the resolver never silently returns a
default member. -/
theorem c2_unrecognizedUID_counterexample :
    "1.2.840.10008.999" ∉ recognizedUIDs ∧
    LegacyTransferSyntax_.fromTransferSyntaxUID "1.2.840.10008.999" =
      TransferSyntax.UncompressedBE :=
  ⟨by decide, rfl⟩

/-- C2 (amended): for every string outside the ten recognized UIDs, the
Result-returning resolver of common.ts returns the typed failure
`Unexpected transfer syntax`; the legacy resolver of DicomImage.ts instead
silently returns `UncompressedBE` for every such string. -/
theorem c2_unrecognizedUID_typedFailure (s : String) (h : s ∉ recognizedUIDs) :
    TransferSyntax_.fromTransferSyntaxUID s = .error "Unexpected transfer syntax" ∧
    LegacyTransferSyntax_.fromTransferSyntaxUID s = TransferSyntax.UncompressedBE := by
  simp only [recognizedUIDs, List.mem_cons, List.mem_singleton, not_or] at h
  obtain ⟨h1, h2, h3, h4, h5, h6, h7, h8, h9, h10⟩ := h
  constructor <;>
    simp [TransferSyntax_.fromTransferSyntaxUID, LegacyTransferSyntax_.fromTransferSyntaxUID,
      h1, h2, h3, h4, h5, h6, h7, h8, h9, h10]

/-- C2 witness: the retired standard UID `1.2.840.10008.1.1` is outside the
table; the common.ts resolver rejects it and the legacy resolver defaults
it to `UncompressedBE`. -/
theorem c2_unrecognizedUID_witness :
    "1.2.840.10008.1.1" ∉ recognizedUIDs ∧
    (TransferSyntax_.fromTransferSyntaxUID "1.2.840.10008.1.1" =
        .error "Unexpected transfer syntax" ∧
     LegacyTransferSyntax_.fromTransferSyntaxUID "1.2.840.10008.1.1" =
        TransferSyntax.UncompressedBE) :=
  ⟨by decide, c2_unrecognizedUID_typedFailure "1.2.840.10008.1.1" (by decide)⟩

/-- C3 (code bug): `bigEndianGray16` declares big-endian byte order, yet
the decoder reinterprets its byte pair `[0, 1]` in the platform's
little-endian order with no byte-swap pass, yielding sample 256 where the
big-endian interpretation required by the claim is 1.  The decoder never
reads the `endianness` field at all. -/
theorem c3_bigEndian_byteSwap_omitted :
    bigEndianGray16.endianness = Endianness.BigEndian ∧
    bigEndianGray16.pixelData = [0, 1] ∧
    Image_.fromDicomImage bigEndianGray16 =
      .ok (Image.grayScale 1 1 (SampleBuffer.u16 [256])) :=
  ⟨rfl, rfl, by decide⟩

/-- C4: each of the ten recognized UIDs resolves to its documented
TransferSyntax member; `toCompressionAndEndianness` is total over the
enumeration (the six listed members exhaust it) and returns the documented
(Compression, Endianness) pair for every member, the six pairs being
pairwise distinct. -/
theorem c4_uidTable_and_classify :
    (recognizedUIDs.map TransferSyntax_.fromTransferSyntaxUID =
      [.ok TransferSyntax.UncompressedLE, .ok TransferSyntax.UncompressedLE,
       .ok TransferSyntax.UncompressedBE, .ok TransferSyntax.JPEG2000,
       .ok TransferSyntax.JPEG2000, .ok TransferSyntax.DecodeRLE,
       .ok TransferSyntax.JPEGLossless, .ok TransferSyntax.JPEGLossless,
       .ok TransferSyntax.JPEGBaseline, .ok TransferSyntax.JPEGBaseline]) ∧
    (allTransferSyntaxes.map TransferSyntax_.toCompressionAndEndianness =
      [(Compression.Jpeg2000, Endianness.LittleEndian),
       (Compression.Rle, Endianness.LittleEndian),
       (Compression.JpegLossless, Endianness.LittleEndian),
       (Compression.JpegBaseline, Endianness.LittleEndian),
       (Compression.None, Endianness.LittleEndian),
       (Compression.None, Endianness.BigEndian)]) ∧
    (∀ t : TransferSyntax, t ∈ allTransferSyntaxes) ∧
    allTransferSyntaxes.Pairwise
      (fun a b => TransferSyntax_.toCompressionAndEndianness a ≠
        TransferSyntax_.toCompressionAndEndianness b) := by
  refine ⟨by decide, by decide, ?_, by decide⟩
  intro t
  cases t <;> simp [allTransferSyntaxes]

/-- C5 counterexample: `rgbImage3` does not meet the grayscale
preconditions, and `fromDicomImage` throws `Couldn't convert to Image`
instead of attempting any RGB decode, refuting the claim that decode
attempts an RGB reinterpretation for such inputs. -/
theorem c5_nonGrayscale_counterexample :
    Image_.fromDicomImage rgbImage3 = .error "Couldn't convert to Image" := by
  decide

/-- C5 (amended): for every DicomImage not meeting the grayscale
preconditions, `fromDicomImage` raises `Couldn't convert to Image` and
produces no raster; the RGB reinterpretation exists only as the uncalled
placeholder `_rgbFrom`, which reads only rows, columns and the raw pixel
bytes — so two images agreeing on those three fields get identical
`_rgbFrom` results regardless of planarConfiguration, bitsAllocated,
highBit or pixelRepresentation. -/
theorem c5_nonGrayscale_throws (d d2 : DicomImage)
    (h : ¬(d.compression = Compression.None ∧
      (d.photometricInterpratation = "MONOCHROME1" ∨
       d.photometricInterpratation = "MONOCHROME2") ∧
      d.samplePerPixel = 1))
    (hrows : d2.rows = d.rows) (hcols : d2.columns = d.columns)
    (hpix : d2.pixelData = d.pixelData) :
    Image_.fromDicomImage d = .error "Couldn't convert to Image" ∧
    Image_._rgbFrom d2 = Image_._rgbFrom d := by
  constructor
  · simp [Image_.fromDicomImage, h]
  · simp [Image_._rgbFrom, hrows, hcols, hpix]

/-- C5 witness: `rgbImage3` is rejected by `fromDicomImage`, and
`rgbImage3var` (same dimensions and bytes, different planar configuration,
bit layout and signedness) gets the same `_rgbFrom` result. -/
theorem c5_nonGrayscale_witness :
    ¬(rgbImage3.compression = Compression.None ∧
      (rgbImage3.photometricInterpratation = "MONOCHROME1" ∨
       rgbImage3.photometricInterpratation = "MONOCHROME2") ∧
      rgbImage3.samplePerPixel = 1) ∧
    (Image_.fromDicomImage rgbImage3 = .error "Couldn't convert to Image" ∧
     Image_._rgbFrom rgbImage3var = Image_._rgbFrom rgbImage3) :=
  ⟨by decide, c5_nonGrayscale_throws rgbImage3 rgbImage3var (by decide) rfl rfl rfl⟩

/-- C6: a DicomImage meeting the other grayscale preconditions (compression
None, one sample per pixel, coherent pixel-data VR, coherent bit layout)
but with photometric interpretation Monochrome1 is rejected with the typed
failure `Not supported photometricInterpratation` and never yields a
raster. -/
theorem c6_monochrome1_rejected (d : DicomImage)
    (hcomp : d.compression = Compression.None)
    (hspp : d.samplePerPixel = 1)
    (hpi : d.photometricInterpratation = "MONOCHROME1")
    (hvr : d.pixelDataVr = PixelDataVr.OW → d.bitsAllocated = 16)
    (hbit : d.highBit + 1 = d.bitsStored) :
    Image_.fromDicomImage d = .error "Not supported photometricInterpratation" := by
  have h1 : ¬(d.pixelDataVr = PixelDataVr.OW ∧ d.bitsAllocated ≠ 16) := by
    rintro ⟨h, hne⟩
    exact hne (hvr h)
  simp [Image_.fromDicomImage, Image_._fromDataForImageGrayScale, hcomp, hpi, hspp, h1, hbit]

/-- C6 witness: the concrete Monochrome1 image `mono1Gray16` is rejected
with the photometric-interpretation failure. -/
theorem c6_monochrome1_rejected_witness :
    (mono1Gray16.pixelDataVr = PixelDataVr.OW → mono1Gray16.bitsAllocated = 16) ∧
    mono1Gray16.highBit + 1 = mono1Gray16.bitsStored ∧
    Image_.fromDicomImage mono1Gray16 = .error "Not supported photometricInterpratation" :=
  ⟨by decide, rfl, c6_monochrome1_rejected mono1Gray16 rfl rfl rfl (by decide) rfl⟩

/-- C7: on the grayscale decode path, `highBit + 1 ≠ bitsStored` never
yields a raster — some typed failure is raised — and once the path has
passed the preceding VR-coherence check the failure is exactly
`Not supported combination of hightBit and bitsStored`, with no defaulting
recovery. -/
theorem c7_bitLayout_rejected (d : DicomImage)
    (hcomp : d.compression = Compression.None)
    (hpi : d.photometricInterpratation = "MONOCHROME1" ∨
      d.photometricInterpratation = "MONOCHROME2")
    (hspp : d.samplePerPixel = 1)
    (hbit : d.highBit + 1 ≠ d.bitsStored) :
    (∃ msg, Image_.fromDicomImage d = .error msg) ∧
    ((d.pixelDataVr = PixelDataVr.OW → d.bitsAllocated = 16) →
      Image_.fromDicomImage d =
        .error "Not supported combination of hightBit and bitsStored") := by
  by_cases hvr : d.pixelDataVr = PixelDataVr.OW ∧ d.bitsAllocated ≠ 16
  · refine ⟨⟨"Not supported pixelData VR", ?_⟩, fun hcoh => absurd (hcoh hvr.1) hvr.2⟩
    simp [Image_.fromDicomImage, Image_._fromDataForImageGrayScale, hcomp, hspp, hpi, hvr]
  · have herr : Image_.fromDicomImage d =
        .error "Not supported combination of hightBit and bitsStored" := by
      simp [Image_.fromDicomImage, Image_._fromDataForImageGrayScale, hcomp, hspp, hpi, hvr, hbit]
    exact ⟨⟨_, herr⟩, fun _ => herr⟩

/-- C7 witness: `badBitsGray16` has highBit = 7 and bitsStored = 16 and is
rejected with the bit-layout failure. -/
theorem c7_bitLayout_rejected_witness :
    badBitsGray16.highBit + 1 ≠ badBitsGray16.bitsStored ∧
    ((∃ msg, Image_.fromDicomImage badBitsGray16 = .error msg) ∧
     ((badBitsGray16.pixelDataVr = PixelDataVr.OW → badBitsGray16.bitsAllocated = 16) →
       Image_.fromDicomImage badBitsGray16 =
         .error "Not supported combination of hightBit and bitsStored")) :=
  ⟨by decide, c7_bitLayout_rejected badBitsGray16 rfl (Or.inr rfl) rfl (by decide)⟩

/-- C8 (code bug): `"0.5\\0.5"` parses to row = column = 1/2 and the
one-field `"0.5"` is rejected, as claimed; but the non-numeric
`"abc\\0.5"` succeeds with row = NaN (modelled `none`) instead of the
claimed typed parse error, because `Number.parseFloat` never throws and the
catch branch is dead. -/
theorem c8_pixelSpacing_parse :
    PixelSpacing.fromString "0.5\\0.5" =
      .ok { row := some (1/2), column := some (1/2) } ∧
    PixelSpacing.fromString "0.5" = .error "Invalid value of Pixel Spacing" ∧
    PixelSpacing.fromString "abc\\0.5" = .ok { row := none, column := some (1/2) } := by
  have hs1 : splitOnChar '\\' "0.5\\0.5".data = [['0', '.', '5'], ['0', '.', '5']] := by decide
  have hs2 : splitOnChar '\\' "0.5".data = [['0', '.', '5']] := by decide
  have hs3 : splitOnChar '\\' "abc\\0.5".data = [['a', 'b', 'c'], ['0', '.', '5']] := by decide
  have hscan1 : scanFloat ['0', '.', '5'] =
      some { neg := false, intDigits := ['0'], fracDigits := ['5'] } := by decide
  have hscan2 : scanFloat ['a', 'b', 'c'] = none := by decide
  have hd0 : digitsToNat ['0'] = 0 := by decide
  have hd5 : digitsToNat ['5'] = 5 := by decide
  have hval : floatValue { neg := false, intDigits := ['0'], fracDigits := ['5'] } = 1/2 := by
    norm_num [floatValue, hd0, hd5]
  refine ⟨?_, ?_, ?_⟩ <;>
    simp [PixelSpacing.fromString, parseFloatChars, hs1, hs2, hs3, hscan1, hscan2, hval]

/-- C9: the windowing resolver is total — an absent hint yields the fixed
default module {center 1024, width 4096, function Linear}; a hint's center
and width are used verbatim with no range validation; an unspecified
function defaults to Linear, matching the extraction-side defaulting of
`_fromDataSet` (a present center with no function tag yields Linear). -/
theorem c9_windowing_defaults :
    resolveVoiLut none =
      { window := { center := 1024, width := 4096 }, voiLutFunction := "LINEAR" } ∧
    resolveVoiLut
        (some { windowCenter := some 200, windowWidth := some 400, voiLutFunction := none }) =
      { window := { center := 200, width := 400 }, voiLutFunction := "LINEAR" } ∧
    (∀ (c w : ℚ) (f : String),
      resolveVoiLut
          (some { windowCenter := some c, windowWidth := some w, voiLutFunction := some f }) =
        { window := { center := c, width := w }, voiLutFunction := f }) ∧
    extractVoiLutFunction none (some 200) = some "LINEAR" :=
  ⟨rfl, rfl, fun _ _ _ => rfl, rfl⟩

/-- C10: the metadata extractor performs no validation of the
photometric-interpretation string — any tag source whose x00280004 tag
holds any string, with all other required tags present and in range,
extracts successfully and carries that raw string verbatim. -/
theorem c10_photometric_unvalidated (ds : DataSet) (piStr : String)
    (rows columns spp ba bs hb prv : Nat) (elem : DicomElement)
    (hrows : ds.uint16At "x00280010" = some rows)
    (hcols : ds.uint16At "x00280011" = some columns)
    (hspp : ds.uint16At "x00280002" = some spp)
    (hpi : ds.stringAt "x00280004" = some piStr)
    (hpc : (ds.uint16At "x00280006").getD 0 = 0 ∨ (ds.uint16At "x00280006").getD 0 = 1)
    (hba : ds.uint16At "x00280100" = some ba)
    (hbs : ds.uint16At "x00280101" = some bs)
    (hhb : ds.uint16At "x00280102" = some hb)
    (hprv : ds.uint16At "x00280103" = some prv)
    (hprv01 : prv = 0 ∨ prv = 1)
    (helem : ds.elementAt "x7fe00010" = some elem)
    (hvr : elem.vr.getD "OB" = "OB" ∨ elem.vr.getD "OB" = "OW")
    (hseq : ds.elementAt "x00283010" = none) :
    ∃ img, DicomImage._fromDataSet ds = .ok img ∧
      img.photometricInterpratation = piStr := by
  simp only [DicomImage._fromDataSet, DicomImage._fromDataSet.processPlanar,
    hrows, hcols, hspp, hpi, hba, hbs, hhb, hprv, helem, hseq]
  rcases hpc with hpc | hpc <;> rw [hpc] <;>
    rcases hprv01 with hprv01 | hprv01 <;> subst hprv01 <;>
      rcases hvr with hvr | hvr <;> rw [hvr] <;>
        exact ⟨_, rfl, rfl⟩

/-- C10 witness: `fooBarDataSet` carries the out-of-enumeration string
`"FOO BAR"` as its photometric interpretation and still extracts
successfully, with the string passed through verbatim. -/
theorem c10_photometric_unvalidated_witness :
    fooBarDataSet.stringAt "x00280004" = some "FOO BAR" ∧
    (∃ img, DicomImage._fromDataSet fooBarDataSet = .ok img ∧
      img.photometricInterpratation = "FOO BAR") :=
  ⟨rfl,
   c10_photometric_unvalidated fooBarDataSet "FOO BAR" 2 3 1 16 16 15 0
     { vr := some "OB", length := 2, dataOffset := 0 }
     rfl rfl rfl rfl (Or.inl rfl) rfl rfl rfl rfl (Or.inl rfl) rfl (Or.inl rfl) rfl⟩

end DicomViewer
